import Mathlib

/-!
Shallow embedding of the influencer/sponsor marketplace server
(tRPC handlers over a drizzle/Postgres store).

Tables are lists of rows kept in primary-key (insertion) order; serial id
generation is modelled by per-table counters.  Timestamps are integers
(milliseconds).  Postgres `numeric(10,2)` / `numeric(5,2)` columns, which the
handlers write via `toString` and read via `parseFloat`, are modelled by their
exact value space: an integer number of hundredths (`storeBudget` /
`loadBudget`), respectively an exact rational for the nullable engagement rate.
Mutating handlers take the current wall-clock value (`new Date()`) as an
explicit `now` argument and return `Except String result × DB`; the error case
carries the unchanged store.
-/

inductive Platform where
  | instagram | youtube | tiktok | twitter | linkedin | facebook | other
deriving DecidableEq, Repr

inductive CampaignStatus where
  | draft | active | paused | completed | cancelled
deriving DecidableEq, Repr

/-- Row of `influencers` (db/schema.ts `influencersTable`). -/
structure Influencer where
  id : Int
  name : String
  email : String
  phone : Option String
  bio : Option String
  portfolio_description : Option String
  created_at : Int
  updated_at : Int
deriving DecidableEq, Repr

/-- Row of `social_media_accounts` (db/schema.ts `socialMediaAccountsTable`). -/
structure SocialMediaAccount where
  id : Int
  influencer_id : Int
  platform : Platform
  username : String
  url : String
  follower_count : Option Int
  created_at : Int
deriving DecidableEq, Repr

/-- Row of `sponsors` (db/schema.ts `sponsorsTable`). -/
structure Sponsor where
  id : Int
  company_name : String
  contact_email : String
  contact_phone : Option String
  industry : String
  description : Option String
  created_at : Int
  updated_at : Int
deriving DecidableEq, Repr

/-- Row of `products` (db/schema.ts `productsTable`). -/
structure Product where
  id : Int
  sponsor_id : Int
  name : String
  description : Option String
  category : String
  target_audience : Option String
  created_at : Int
  updated_at : Int
deriving DecidableEq, Repr

/-- Row of `campaigns` (db/schema.ts `campaignsTable`); `budget` holds the
exact value of the `numeric(10,2)` column, scaled to hundredths. -/
structure Campaign where
  id : Int
  sponsor_id : Int
  product_id : Int
  title : String
  description : Option String
  budget : Int
  target_audience : Option String
  objectives : Option String
  status : CampaignStatus
  start_date : Option Int
  end_date : Option Int
  created_at : Int
  updated_at : Int
deriving DecidableEq, Repr

/-- Campaign as returned over the API (schema.ts `campaignSchema`): the budget
has been parsed back to a number. -/
structure CampaignOut where
  id : Int
  sponsor_id : Int
  product_id : Int
  title : String
  description : Option String
  budget : ℚ
  target_audience : Option String
  objectives : Option String
  status : CampaignStatus
  start_date : Option Int
  end_date : Option Int
  created_at : Int
  updated_at : Int
deriving DecidableEq, Repr

/-- Row of `performance_indicators` (db/schema.ts
`performanceIndicatorsTable`); `avg_engagement_rate` is the exact value of the
nullable `numeric(5,2)` column. -/
structure PerfIndicator where
  id : Int
  influencer_id : Int
  platform : Platform
  followers_count : Int
  avg_views : Option Int
  avg_engagement_rate : Option ℚ
  total_posts : Option Int
  last_updated : Int
  created_at : Int
deriving DecidableEq, Repr

/-- The relational store: the six tables in primary-key order plus the serial
counters. -/
structure DB where
  influencers : List Influencer
  socialAccounts : List SocialMediaAccount
  sponsors : List Sponsor
  products : List Product
  campaigns : List Campaign
  perfIndicators : List PerfIndicator
  nextInfluencerId : Int
  nextAccountId : Int
  nextSponsorId : Int
  nextProductId : Int
  nextCampaignId : Int
  nextPerfId : Int
deriving DecidableEq, Repr

/-- JavaScript `x || null` on an optional nullable string field: `undefined`,
`null` and the empty string all collapse to `null`. -/
def jsOrNullStr : Option (Option String) → Option String
  | some (some s) => if s.isEmpty then none else some s
  | _ => none

/-- JavaScript `x || null` on an optional nullable number field: `undefined`,
`null` and `0` all collapse to `null`. -/
def jsOrNullNum : Option (Option Int) → Option Int
  | some (some n) => if n = 0 then none else some n
  | _ => none

/-- JavaScript `x || null` on an optional nullable `Date` field: a `Date`
object is always truthy, so only `undefined`/`null` collapse. -/
def jsOrNullDate : Option (Option Int) → Option Int
  | some (some d) => some d
  | _ => none

/-- JavaScript `x ?? null` on an optional nullable number field. -/
def jsNullish : Option (Option Int) → Option Int
  | some (some n) => some n
  | _ => none

/-- Writing a JS number into the `numeric(10,2)` budget column
(`input.budget.toString()` then Postgres cast, which rounds to two decimal
places, half up for the positive budgets the schema admits): the stored exact
value, scaled to hundredths.  `⌊b·100 + 1/2⌋` computed on numerator and
denominator so that it evaluates by kernel reduction. -/
def storeBudget (b : ℚ) : Int :=
  Int.fdiv (200 * b.num + (b.den : Int)) (2 * (b.den : Int))

/-- Reading the `numeric(10,2)` budget column back as a number
(`parseFloat(campaign.budget)`). -/
def loadBudget (z : Int) : ℚ := mkRat z 100

/-- SQL numeric comparison `q ≤ z/100` of a JS number against a stored
hundredths value, in integer cross-multiplied form. -/
def ratLeCents (q : ℚ) (z : Int) : Bool :=
  decide (q.num * 100 ≤ z * (q.den : Int))

/-- SQL numeric comparison `z/100 ≤ q`. -/
def centsLeRat (z : Int) (q : ℚ) : Bool :=
  decide (z * (q.den : Int) ≤ q.num * 100)

lemma ratLeCents_iff (q : ℚ) (z : Int) :
    ratLeCents q z = true ↔ q ≤ (z : ℚ) / 100 := by
  rw [ratLeCents, decide_eq_true_iff]
  rw [le_div_iff₀ (show (0:ℚ) < 100 by norm_num)]
  conv_rhs => rw [← Rat.num_div_den q]
  rw [div_mul_eq_mul_div,
    div_le_iff₀ (show (0:ℚ) < (q.den : ℚ) by exact_mod_cast q.den_pos)]
  constructor <;> intro h <;> exact_mod_cast h

lemma centsLeRat_iff (z : Int) (q : ℚ) :
    centsLeRat z q = true ↔ (z : ℚ) / 100 ≤ q := by
  rw [centsLeRat, decide_eq_true_iff]
  rw [div_le_iff₀ (show (0:ℚ) < 100 by norm_num)]
  conv_rhs => rw [← Rat.num_div_den q]
  rw [div_mul_eq_mul_div,
    le_div_iff₀ (show (0:ℚ) < (q.den : ℚ) by exact_mod_cast q.den_pos)]
  constructor <;> intro h <;> exact_mod_cast h

lemma storeBudget_eq_floor (b : ℚ) : storeBudget b = ⌊b * 100 + 1/2⌋ := by
  have hden : ((2 * b.den : ℕ) : ℤ) = 2 * (b.den : ℤ) := by push_cast; ring
  have hval : (b * 100 + 1/2 : ℚ)
      = ((200 * b.num + (b.den : ℤ) : ℤ) : ℚ) / ((2 * b.den : ℕ) : ℚ) := by
    conv_lhs => rw [← Rat.num_div_den b]
    have h0 : ((b.den : ℚ)) ≠ 0 := by exact_mod_cast b.den_pos.ne'
    push_cast
    field_simp
    ring
  rw [storeBudget, hval, Rat.floor_intCast_div_natCast, hden,
    Int.fdiv_eq_ediv]
  positivity

/-- Handler result shape for a campaign: all columns verbatim, budget parsed
back to a number. -/
def campaignToOut (c : Campaign) : CampaignOut :=
  { id := c.id, sponsor_id := c.sponsor_id, product_id := c.product_id,
    title := c.title, description := c.description,
    budget := loadBudget c.budget, target_audience := c.target_audience,
    objectives := c.objectives, status := c.status,
    start_date := c.start_date, end_date := c.end_date,
    created_at := c.created_at, updated_at := c.updated_at }

/-- `chPre p h`: the char list `p` is an initial segment of `h`. -/
def chPre : List Char → List Char → Bool
  | [], _ => true
  | _ :: _, [] => false
  | a :: as, b :: bs => a == b && chPre as bs

/-- `chSub p h`: the char list `p` occurs contiguously inside `h`. -/
def chSub (p : List Char) : List Char → Bool
  | [] => chPre p []
  | b :: bs => chPre p (b :: bs) || chSub p bs

/-- Case-insensitive substring test: the semantics of
`column ILIKE '%pat%'` for a pattern without wildcard characters. -/
def containsCI (hay pat : String) : Bool :=
  chSub (pat.data.map Char.toLower) (hay.data.map Char.toLower)

/-- `ILIKE` applied to a nullable column: SQL `NULL` never matches. -/
def optContainsCI (hay : Option String) (pat : String) : Bool :=
  match hay with
  | some s => containsCI s pat
  | none => false

/-! ## Handler inputs (schema.ts zod input schemas)

An `optional()` field is `Option`; an `optional().nullable()` field is
`Option (Option _)` (outer: supplied at all; inner: explicit null).  zod
applies the declared defaults (`limit` 50, `offset` 0, campaign `status`
`draft`) before the handler runs, so defaulted fields appear already
resolved. -/

structure CreateInfluencerInput where
  name : String
  email : String
  phone : Option (Option String)
  bio : Option (Option String)
  portfolio_description : Option (Option String)
deriving DecidableEq, Repr

structure CreateSocialMediaAccountInput where
  influencer_id : Int
  platform : Platform
  username : String
  url : String
  follower_count : Option (Option Int)
deriving DecidableEq, Repr

structure CreateSponsorInput where
  company_name : String
  contact_email : String
  contact_phone : Option (Option String)
  industry : String
  description : Option (Option String)
deriving DecidableEq, Repr

structure CreateProductInput where
  sponsor_id : Int
  name : String
  description : Option (Option String)
  category : String
  target_audience : Option (Option String)
deriving DecidableEq, Repr

structure CreateCampaignInput where
  sponsor_id : Int
  product_id : Int
  title : String
  description : Option (Option String)
  budget : ℚ
  target_audience : Option (Option String)
  objectives : Option (Option String)
  status : CampaignStatus
  start_date : Option (Option Int)
  end_date : Option (Option Int)
deriving DecidableEq, Repr

structure UpdateInfluencerInput where
  id : Int
  name : Option String
  email : Option String
  phone : Option (Option String)
  bio : Option (Option String)
  portfolio_description : Option (Option String)
deriving DecidableEq, Repr

structure UpdateSponsorInput where
  id : Int
  company_name : Option String
  contact_email : Option String
  contact_phone : Option (Option String)
  industry : Option String
  description : Option (Option String)
deriving DecidableEq, Repr

/-- `updateCampaignInputSchema`: note there is no `sponsor_id` and no
`product_id` field. -/
structure UpdateCampaignInput where
  id : Int
  title : Option String
  description : Option (Option String)
  budget : Option ℚ
  target_audience : Option (Option String)
  objectives : Option (Option String)
  status : Option CampaignStatus
  start_date : Option (Option Int)
  end_date : Option (Option Int)
deriving DecidableEq, Repr

structure SearchInfluencersInput where
  category : Option String
  min_followers : Option Int
  max_followers : Option Int
  platform : Option Platform
  min_engagement_rate : Option ℚ
  limit : Nat
  offset : Nat
deriving DecidableEq, Repr

structure SearchCampaignsInput where
  category : Option String
  min_budget : Option ℚ
  max_budget : Option ℚ
  status : Option CampaignStatus
  sponsor_id : Option Int
  limit : Nat
  offset : Nat
deriving DecidableEq, Repr

/-! ## Create / get / update handlers -/

/-- handlers: `createInfluencer` — plain insert with `|| null` coercions,
both timestamp columns filled by `defaultNow()`. -/
def createInfluencer (inp : CreateInfluencerInput) (now : Int) (st : DB) :
    Except String Influencer × DB :=
  let row : Influencer :=
    { id := st.nextInfluencerId, name := inp.name, email := inp.email,
      phone := jsOrNullStr inp.phone, bio := jsOrNullStr inp.bio,
      portfolio_description := jsOrNullStr inp.portfolio_description,
      created_at := now, updated_at := now }
  (Except.ok row,
   { st with influencers := st.influencers ++ [row],
             nextInfluencerId := st.nextInfluencerId + 1 })

/-- handlers: `createSponsor` — plain insert with `|| null` coercions. -/
def createSponsor (inp : CreateSponsorInput) (now : Int) (st : DB) :
    Except String Sponsor × DB :=
  let row : Sponsor :=
    { id := st.nextSponsorId, company_name := inp.company_name,
      contact_email := inp.contact_email,
      contact_phone := jsOrNullStr inp.contact_phone,
      industry := inp.industry, description := jsOrNullStr inp.description,
      created_at := now, updated_at := now }
  (Except.ok row,
   { st with sponsors := st.sponsors ++ [row],
             nextSponsorId := st.nextSponsorId + 1 })

/-- handlers: `createProduct` — plain insert with `|| null` coercions. -/
def createProduct (inp : CreateProductInput) (now : Int) (st : DB) :
    Except String Product × DB :=
  let row : Product :=
    { id := st.nextProductId, sponsor_id := inp.sponsor_id, name := inp.name,
      description := jsOrNullStr inp.description, category := inp.category,
      target_audience := jsOrNullStr inp.target_audience,
      created_at := now, updated_at := now }
  (Except.ok row,
   { st with products := st.products ++ [row],
             nextProductId := st.nextProductId + 1 })

/-- The row `createSocialMediaAccount` inserts:
`follower_count: input.follower_count || null`. -/
def newAccountRow (inp : CreateSocialMediaAccountInput) (now : Int)
    (st : DB) : SocialMediaAccount :=
  { id := st.nextAccountId, influencer_id := inp.influencer_id,
    platform := inp.platform, username := inp.username, url := inp.url,
    follower_count := jsOrNullNum inp.follower_count, created_at := now }

/-- handlers: `createSocialMediaAccount` — existence check on the influencer,
then insert. -/
def createSocialMediaAccount (inp : CreateSocialMediaAccountInput) (now : Int)
    (st : DB) : Except String SocialMediaAccount × DB :=
  match st.influencers.find? (fun i => decide (i.id = inp.influencer_id)) with
  | none =>
      (Except.error ("Influencer with ID " ++ toString inp.influencer_id ++
        " does not exist"), st)
  | some _ =>
      let row := newAccountRow inp now st
      (Except.ok row,
       { st with socialAccounts := st.socialAccounts ++ [row],
                 nextAccountId := st.nextAccountId + 1 })

/-- The row `createCampaign` inserts: `|| null` coercions on the optional
text/date fields, budget serialized to the numeric column, both timestamps
from `defaultNow()`. -/
def newCampaignRow (inp : CreateCampaignInput) (now : Int) (st : DB) :
    Campaign :=
  { id := st.nextCampaignId, sponsor_id := inp.sponsor_id,
    product_id := inp.product_id, title := inp.title,
    description := jsOrNullStr inp.description,
    budget := storeBudget inp.budget,
    target_audience := jsOrNullStr inp.target_audience,
    objectives := jsOrNullStr inp.objectives,
    status := inp.status,
    start_date := jsOrNullDate inp.start_date,
    end_date := jsOrNullDate inp.end_date,
    created_at := now, updated_at := now }

/-- handlers: `createCampaign` — sponsor existence, product existence and
product-ownership checks (in that order, each before the insert), then insert
with the budget serialized to the numeric column. -/
def createCampaign (inp : CreateCampaignInput) (now : Int) (st : DB) :
    Except String CampaignOut × DB :=
  match st.sponsors.find? (fun s => decide (s.id = inp.sponsor_id)) with
  | none =>
      (Except.error ("Sponsor with id " ++ toString inp.sponsor_id ++
        " not found"), st)
  | some _ =>
      match st.products.find? (fun p => decide (p.id = inp.product_id)) with
      | none =>
          (Except.error ("Product with id " ++ toString inp.product_id ++
            " not found"), st)
      | some p =>
          if p.sponsor_id ≠ inp.sponsor_id then
            (Except.error ("Product " ++ toString inp.product_id ++
              " does not belong to sponsor " ++ toString inp.sponsor_id), st)
          else
            let row := newCampaignRow inp now st
            (Except.ok (campaignToOut row),
             { st with campaigns := st.campaigns ++ [row],
                       nextCampaignId := st.nextCampaignId + 1 })

/-- handlers: `getInfluencerById` — `null`, not an error, when absent. -/
def getInfluencerById (id : Int) (st : DB) : Option Influencer :=
  st.influencers.find? (fun i => decide (i.id = id))

/-- handlers: `getInfluencers` — full unfiltered table. -/
def getInfluencers (st : DB) : List Influencer := st.influencers

/-- handlers: `getCampaigns` — full table, budgets parsed back to numbers. -/
def getCampaigns (st : DB) : List CampaignOut := st.campaigns.map campaignToOut

/-- The row produced by `updateInfluencer`'s UPDATE: supplied fields
overwrite, absent fields are untouched, `updated_at` is refreshed. -/
def applyInfluencerUpd (u : UpdateInfluencerInput) (now : Int)
    (i : Influencer) : Influencer :=
  { id := i.id, name := u.name.getD i.name, email := u.email.getD i.email,
    phone := u.phone.getD i.phone, bio := u.bio.getD i.bio,
    portfolio_description :=
      u.portfolio_description.getD i.portfolio_description,
    created_at := i.created_at, updated_at := now }

/-- handlers: `updateInfluencer` — existence check first (distinct not-found
message), then UPDATE .. RETURNING. -/
def updateInfluencer (u : UpdateInfluencerInput) (now : Int) (st : DB) :
    Except String Influencer × DB :=
  match st.influencers.find? (fun i => decide (i.id = u.id)) with
  | none =>
      (Except.error ("Influencer with id " ++ toString u.id ++ " not found"),
       st)
  | some r =>
      let updated := st.influencers.map
        (fun i => if i.id = u.id then applyInfluencerUpd u now i else i)
      (Except.ok (applyInfluencerUpd u now r), { st with influencers := updated })

/-- The row produced by `updateSponsor`'s UPDATE. -/
def applySponsorUpd (u : UpdateSponsorInput) (now : Int) (s : Sponsor) :
    Sponsor :=
  { id := s.id, company_name := u.company_name.getD s.company_name,
    contact_email := u.contact_email.getD s.contact_email,
    contact_phone := u.contact_phone.getD s.contact_phone,
    industry := u.industry.getD s.industry,
    description := u.description.getD s.description,
    created_at := s.created_at, updated_at := now }

/-- handlers: `updateSponsor` — UPDATE .. RETURNING, error (with the store
untouched, since no row matched) when the id is absent. -/
def updateSponsor (u : UpdateSponsorInput) (now : Int) (st : DB) :
    Except String Sponsor × DB :=
  match st.sponsors.find? (fun s => decide (s.id = u.id)) with
  | none =>
      (Except.error ("Sponsor with id " ++ toString u.id ++ " not found"), st)
  | some r =>
      let updated := st.sponsors.map
        (fun s => if s.id = u.id then applySponsorUpd u now s else s)
      (Except.ok (applySponsorUpd u now r), { st with sponsors := updated })

/-- The row produced by `updateCampaign`'s UPDATE: a supplied budget is
re-serialized to the numeric column; `sponsor_id` and `product_id` have no
corresponding input field and are never touched. -/
def applyCampaignUpd (u : UpdateCampaignInput) (now : Int) (c : Campaign) :
    Campaign :=
  { id := c.id, sponsor_id := c.sponsor_id, product_id := c.product_id,
    title := u.title.getD c.title,
    description := u.description.getD c.description,
    budget := match u.budget with
      | some b => storeBudget b
      | none => c.budget,
    target_audience := u.target_audience.getD c.target_audience,
    objectives := u.objectives.getD c.objectives,
    status := u.status.getD c.status,
    start_date := u.start_date.getD c.start_date,
    end_date := u.end_date.getD c.end_date,
    created_at := c.created_at, updated_at := now }

/-- handlers: `updateCampaign` — existence check first (distinct not-found
message), then UPDATE .. RETURNING with the budget parsed back to a number. -/
def updateCampaign (u : UpdateCampaignInput) (now : Int) (st : DB) :
    Except String CampaignOut × DB :=
  match st.campaigns.find? (fun c => decide (c.id = u.id)) with
  | none =>
      (Except.error ("Campaign with id " ++ toString u.id ++ " not found"), st)
  | some r =>
      let updated := st.campaigns.map
        (fun c => if c.id = u.id then applyCampaignUpd u now c else c)
      (Except.ok (campaignToOut (applyCampaignUpd u now r)),
       { st with campaigns := updated })

/-! ## searchInfluencers (handlers/search_influencers implementation)

The handler builds a conditions array and picks one of four query shapes
depending on which joins the supplied filters require.  The three querying
branches with a join apply GROUP BY over all influencer columns; pagination
(LIMIT/OFFSET) is applied last.  Conditions not pushed for a given input are
the constant `true` below, matching the conjunction of the pushed ones. -/

/-- The category condition is pushed only when `input.category` is truthy
(present and non-empty); it is an `ILIKE` against bio OR
portfolio_description, where a SQL `NULL` column never matches. -/
def condCategory (inp : SearchInfluencersInput) (i : Influencer) : Bool :=
  match inp.category with
  | none => true
  | some c =>
      if c.isEmpty then true
      else optContainsCI i.bio c || optContainsCI i.portfolio_description c

def condMinFollowers (inp : SearchInfluencersInput) (p : PerfIndicator) :
    Bool :=
  match inp.min_followers with
  | none => true
  | some m => decide (m ≤ p.followers_count)

def condMaxFollowers (inp : SearchInfluencersInput) (p : PerfIndicator) :
    Bool :=
  match inp.max_followers with
  | none => true
  | some m => decide (p.followers_count ≤ m)

def condPlatform (inp : SearchInfluencersInput) (s : SocialMediaAccount) :
    Bool :=
  match inp.platform with
  | none => true
  | some pl => decide (s.platform = pl)

/-- `gte` against the nullable numeric engagement column: NULL fails. -/
def condEngagement (inp : SearchInfluencersInput) (p : PerfIndicator) :
    Bool :=
  match inp.min_engagement_rate with
  | none => true
  | some m =>
      match p.avg_engagement_rate with
      | none => false
      | some r => decide (m ≤ r)

/-- `needsPerformanceJoin` in the handler. -/
def needsPIJoin (inp : SearchInfluencersInput) : Bool :=
  inp.min_followers.isSome || inp.max_followers.isSome ||
    inp.min_engagement_rate.isSome || inp.category.isSome

/-- `needsSocialMediaJoin` in the handler. -/
def needsSMAJoin (inp : SearchInfluencersInput) : Bool :=
  inp.platform.isSome || inp.category.isSome

/-- The social accounts joined to one influencer (`ON influencer_id = id`). -/
def smaRowsOf (st : DB) (iid : Int) : List SocialMediaAccount :=
  st.socialAccounts.filter (fun s => decide (s.influencer_id = iid))

/-- The performance rows joined to one influencer. -/
def piRowsOf (st : DB) (iid : Int) : List PerfIndicator :=
  st.perfIndicators.filter (fun p => decide (p.influencer_id = iid))

/-- GROUP BY over all influencer columns: one output row per influencer id,
first occurrence kept (rows carry identical columns for equal ids). -/
def dedupByIdAux (seen : List Int) : List Influencer → List Influencer
  | [] => []
  | i :: rest =>
      if i.id ∈ seen then dedupByIdAux seen rest
      else i :: dedupByIdAux (i.id :: seen) rest

def dedupById (l : List Influencer) : List Influencer := dedupByIdAux [] l

/-- The result set of `searchInfluencers` before LIMIT/OFFSET: one of four
query shapes depending on the needed joins. -/
def searchInfluencersBase (inp : SearchInfluencersInput) (st : DB) :
    List Influencer :=
  if needsPIJoin inp && needsSMAJoin inp then
      let joined := st.influencers.flatMap (fun i =>
        (smaRowsOf st i.id).flatMap (fun s =>
          (piRowsOf st i.id).map (fun p => (i, s, p))))
      let kept := joined.filter (fun t =>
        condCategory inp t.1 && condMinFollowers inp t.2.2 &&
        condMaxFollowers inp t.2.2 && condPlatform inp t.2.1 &&
        condEngagement inp t.2.2)
      dedupById (kept.map (fun t => t.1))
    else if needsPIJoin inp then
      let joined := st.influencers.flatMap (fun i =>
        (piRowsOf st i.id).map (fun p => (i, p)))
      let kept := joined.filter (fun t =>
        condCategory inp t.1 && condMinFollowers inp t.2 &&
        condMaxFollowers inp t.2 && condEngagement inp t.2)
      dedupById (kept.map (fun t => t.1))
    else if needsSMAJoin inp then
      let joined := st.influencers.flatMap (fun i =>
        (smaRowsOf st i.id).map (fun s => (i, s)))
      let kept := joined.filter (fun t =>
        condCategory inp t.1 && condPlatform inp t.2)
      dedupById (kept.map (fun t => t.1))
    else
      st.influencers

/-- handlers: `searchInfluencers` — the selected query shape with
LIMIT/OFFSET applied last. -/
def searchInfluencers (inp : SearchInfluencersInput) (st : DB) :
    List Influencer :=
  ((searchInfluencersBase inp st).drop inp.offset).take inp.limit

/-- Derived row-level characterization of the influencer search: the filters
the handler actually applies, with the inner joins' implicit existence
requirements made explicit. -/
def influencerMatches (inp : SearchInfluencersInput) (st : DB)
    (i : Influencer) : Bool :=
  condCategory inp i &&
  (if needsPIJoin inp then
    (piRowsOf st i.id).any (fun p =>
      condMinFollowers inp p && condMaxFollowers inp p && condEngagement inp p)
   else true) &&
  (if needsSMAJoin inp then
    (smaRowsOf st i.id).any (fun s => condPlatform inp s)
   else true)

/-- Modelled from the spec: the spec's reading of the influencer search
filters — an influencer qualifies when it satisfies the conjunction of the
supplied filters alone (each follower/engagement/platform filter holding on
some row of the influencer), with no further requirement coming from the
joins. -/
def specInfluencerMatches (inp : SearchInfluencersInput) (st : DB)
    (i : Influencer) : Bool :=
  (match inp.category with
   | none => true
   | some c => optContainsCI i.bio c || optContainsCI i.portfolio_description c) &&
  (match inp.min_followers with
   | none => true
   | some m => (piRowsOf st i.id).any (fun p => decide (m ≤ p.followers_count))) &&
  (match inp.max_followers with
   | none => true
   | some m => (piRowsOf st i.id).any (fun p => decide (p.followers_count ≤ m))) &&
  (match inp.platform with
   | none => true
   | some pl => (smaRowsOf st i.id).any (fun s => decide (s.platform = pl))) &&
  (match inp.min_engagement_rate with
   | none => true
   | some m => (piRowsOf st i.id).any (fun p =>
      match p.avg_engagement_rate with
      | none => false
      | some r => decide (m ≤ r)))

/-! ## searchCampaigns (src/unnamed/part_004) -/

def condCatProduct (inp : SearchCampaignsInput) (p : Product) : Bool :=
  match inp.category with
  | none => true
  | some cat => decide (p.category = cat)

def condSponsorC (inp : SearchCampaignsInput) (c : Campaign) : Bool :=
  match inp.sponsor_id with
  | none => true
  | some sid => decide (c.sponsor_id = sid)

def condMinBudget (inp : SearchCampaignsInput) (c : Campaign) : Bool :=
  match inp.min_budget with
  | none => true
  | some m => ratLeCents m c.budget

def condMaxBudget (inp : SearchCampaignsInput) (c : Campaign) : Bool :=
  match inp.max_budget with
  | none => true
  | some m => centsLeRat c.budget m

def condStatusC (inp : SearchCampaignsInput) (c : Campaign) : Bool :=
  match inp.status with
  | none => true
  | some s => decide (c.status = s)

/-- The products joined to one campaign (`ON product_id = id`). -/
def productRowsOf (st : DB) (pid : Int) : List Product :=
  st.products.filter (fun p => decide (p.id = pid))

/-- The campaign rows selected by `searchCampaigns` before LIMIT/OFFSET:
joins Products exactly when `category` is present. -/
def searchCampaignsRows (inp : SearchCampaignsInput) (st : DB) :
    List Campaign :=
  if inp.category.isSome then
    let joined := st.campaigns.flatMap (fun c =>
      (productRowsOf st c.product_id).map (fun p => (c, p)))
    let kept := joined.filter (fun t =>
      condCatProduct inp t.2 && condSponsorC inp t.1 &&
      condMinBudget inp t.1 && condMaxBudget inp t.1 && condStatusC inp t.1)
    kept.map (fun t => t.1)
  else
    st.campaigns.filter (fun c =>
      condSponsorC inp c && condMinBudget inp c && condMaxBudget inp c &&
      condStatusC inp c)

/-- handlers: `searchCampaigns` — selected rows, paginated, budgets parsed
back to numbers in the returned rows. -/
def searchCampaigns (inp : SearchCampaignsInput) (st : DB) :
    List CampaignOut :=
  (((searchCampaignsRows inp st).drop inp.offset).take inp.limit).map
    campaignToOut

/-- Derived row-level characterization of the campaign search. -/
def campaignMatches (inp : SearchCampaignsInput) (st : DB) (c : Campaign) :
    Bool :=
  (match inp.category with
   | none => true
   | some cat => st.products.any (fun p =>
      decide (p.id = c.product_id) && decide (p.category = cat))) &&
  condSponsorC inp c && condMinBudget inp c && condMaxBudget inp c &&
  condStatusC inp c

/-- The cross-entity invariant established by `createCampaign`: every
campaign's product exists and is owned by the campaign's sponsor. -/
def campaignIntegrity (st : DB) : Bool :=
  st.campaigns.all (fun c => st.products.any (fun p =>
    decide (p.id = c.product_id) && decide (p.sponsor_id = c.sponsor_id)))

/-- Primary keys are unique (serial columns): well-formedness facts used where
GROUP BY deduplication, join multiplicity or row lookup depend on them. -/
def DB.influencerIdsNodup (st : DB) : Prop :=
  (st.influencers.map (fun i => i.id)).Nodup

def DB.productIdsNodup (st : DB) : Prop :=
  (st.products.map (fun p => p.id)).Nodup

instance (st : DB) : Decidable st.influencerIdsNodup := by
  unfold DB.influencerIdsNodup; infer_instance

instance (st : DB) : Decidable st.productIdsNodup := by
  unfold DB.productIdsNodup; infer_instance

/-! ## Generic list/Bool lemmas used by the query characterizations -/

lemma myIsEmpty_map {α β : Type} (f : α → β) (l : List α) :
    (l.map f).isEmpty = l.isEmpty := by
  cases l <;> rfl

lemma not_isEmpty_filter {α : Type} (c : α → Bool) (l : List α) :
    (!(l.filter c).isEmpty) = l.any c := by
  induction l with
  | nil => rfl
  | cons a t ih =>
      cases hc : c a <;> simp [List.filter_cons, hc, List.any_cons, ih]

lemma any_and_constR {α : Type} (l : List α) (f : α → Bool) (b : Bool) :
    (l.any (fun x => f x && b)) = (l.any f && b) := by
  induction l with
  | nil => simp
  | cons a t ih => simp [List.any_cons, ih, Bool.and_or_distrib_right]

lemma any_const_and {α : Type} (l : List α) (f : α → Bool) (b : Bool) :
    (l.any (fun x => b && f x)) = (b && l.any f) := by
  induction l with
  | nil => simp
  | cons a t ih => simp [List.any_cons, ih, Bool.and_or_distrib_left]

lemma any_and_pair {α β : Type} (A : List α) (B : List β)
    (pl : α → Bool) (q : β → Bool) :
    (A.any (fun s => B.any (fun p => q p && pl s)))
      = (B.any q && A.any pl) := by
  induction A with
  | nil => simp
  | cons s t ih =>
      simp only [List.any_cons, ih, any_and_constR, any_const_and,
        Bool.and_or_distrib_left]

lemma bool_sh5 (a m x pl e : Bool) :
    ((((a && m) && x) && pl) && e) = ((a && ((m && x) && e)) && pl) := by
  cases a <;> cases m <;> cases x <;> cases pl <;> cases e <;> rfl

lemma bool_sh4 (a m x e : Bool) :
    (((a && m) && x) && e) = (a && ((m && x) && e)) := by
  cases a <;> cases m <;> cases x <;> cases e <;> rfl

lemma dedupByIdAux_all_seen (seen : List Int) (xs t : List Influencer)
    (h : ∀ x ∈ xs, x.id ∈ seen) :
    dedupByIdAux seen (xs ++ t) = dedupByIdAux seen t := by
  induction xs with
  | nil => rfl
  | cons a s ih =>
      have ha : a.id ∈ seen := h a (List.mem_cons_self a s)
      simp only [List.cons_append, dedupByIdAux, if_pos ha]
      exact ih (fun x hx => h x (List.mem_cons_of_mem a hx))

lemma dedupByIdAux_flatMap (g : Influencer → List Influencer) :
    ∀ (l : List Influencer) (seen : List Int),
      (l.map (fun i => i.id)).Nodup →
      (∀ i ∈ l, i.id ∉ seen) →
      (∀ i ∈ l, ∀ x ∈ g i, x = i) →
      dedupByIdAux seen (l.flatMap g)
        = l.filter (fun i => !(g i).isEmpty) := by
  intro l
  induction l with
  | nil => intro seen _ _ _; rfl
  | cons i rest ih =>
      intro seen hnd hseen hval
      have hnd' : (rest.map (fun i => i.id)).Nodup :=
        (List.nodup_cons.mp hnd).2
      have hid_notin : i.id ∉ rest.map (fun i => i.id) :=
        (List.nodup_cons.mp hnd).1
      rw [List.flatMap_cons]
      cases hg : g i with
      | nil =>
          rw [List.nil_append]
          have hfilt : List.filter (fun j => !(g j).isEmpty) (i :: rest)
              = List.filter (fun j => !(g j).isEmpty) rest := by
            simp [List.filter_cons, hg]
          rw [hfilt]
          exact ih seen hnd'
            (fun j hj => hseen j (List.mem_cons_of_mem i hj))
            (fun j hj => hval j (List.mem_cons_of_mem i hj))
      | cons x xs =>
          have hx : x = i :=
            hval i (List.mem_cons_self i rest) x (by rw [hg]; exact List.mem_cons_self x xs)
          have hinot : i.id ∉ seen := hseen i (List.mem_cons_self i rest)
          have step1 :
              dedupByIdAux seen ((x :: xs) ++ rest.flatMap g)
                = x :: dedupByIdAux (x.id :: seen) (xs ++ rest.flatMap g) := by
            simp only [List.cons_append, dedupByIdAux]
            rw [if_neg (by rw [hx]; exact hinot)]
            rfl
          have step2 :
              dedupByIdAux (x.id :: seen) (xs ++ rest.flatMap g)
                = dedupByIdAux (x.id :: seen) (rest.flatMap g) := by
            apply dedupByIdAux_all_seen
            intro y hy
            have hyi : y = i := hval i (List.mem_cons_self i rest) y
              (by rw [hg]; exact List.mem_cons_of_mem x hy)
            rw [hyi, hx]
            exact List.mem_cons_self i.id seen
          have step3 :
              dedupByIdAux (x.id :: seen) (rest.flatMap g)
                = rest.filter (fun j => !(g j).isEmpty) := by
            apply ih (x.id :: seen) hnd'
            · intro j hj
              rw [hx]
              intro hmem
              rcases List.mem_cons.mp hmem with h1 | h2
              · exact hid_notin (by
                  rw [← h1]; exact List.mem_map.mpr ⟨j, hj, rfl⟩)
              · exact hseen j (List.mem_cons_of_mem i hj) h2
            · intro j hj
              exact hval j (List.mem_cons_of_mem i hj)
          have hpred : (!(g i).isEmpty) = true := by simp [hg]
          rw [step1, step2, step3, hx]
          simp [List.filter_cons, hpred]

lemma flatMap_if_singleton {α : Type} (l : List α) (g : α → List α)
    (pred : α → Bool)
    (h : ∀ c ∈ l, g c = if pred c then [c] else []) :
    l.flatMap g = l.filter pred := by
  induction l with
  | nil => rfl
  | cons a t ih =>
      rw [List.flatMap_cons, h a (List.mem_cons_self a t),
        ih (fun c hc => h c (List.mem_cons_of_mem a hc))]
      cases hp : pred a <;> simp [List.filter_cons, hp]

/-- With no duplicate keys, filtering on a key yields the `find?` result. -/
lemma filter_key_of_nodup {α : Type} (key : α → Int) (l : List α)
    (hnd : (l.map key).Nodup) (k : Int) :
    l.filter (fun x => decide (key x = k))
      = match l.find? (fun x => decide (key x = k)) with
        | some x => [x]
        | none => [] := by
  induction l with
  | nil => rfl
  | cons a t ih =>
      have hnd' : (t.map key).Nodup := (List.nodup_cons.mp hnd).2
      have hnotin : key a ∉ t.map key := (List.nodup_cons.mp hnd).1
      by_cases ha : key a = k
      · have htail : t.filter (fun x => decide (key x = k)) = [] := by
          apply List.filter_eq_nil_iff.mpr
          intro x hx
          simp only [decide_eq_true_eq]
          intro hxk
          exact hnotin (by
            rw [← ha] at hxk
            exact List.mem_map.mpr ⟨x, hx, hxk⟩)
        simp [List.filter_cons, List.find?_cons, ha, htail]
      · simp only [List.filter_cons, List.find?_cons]
        rw [if_neg (by simpa using ha)]
        have : (decide (key a = k)) = false := by simpa using ha
        rw [this]
        exact ih hnd'

lemma any_map' {α β : Type} (f : α → β) (l : List α) (p : β → Bool) :
    (l.map f).any p = l.any (fun a => p (f a)) := by
  induction l with
  | nil => rfl
  | cons a t ih => simp [List.any_cons, ih]

lemma proj_of_filter_map {γ : Type} (proj : γ → Influencer) (c : γ → Bool)
    (L : List γ) (i : Influencer) (h : ∀ t ∈ L, proj t = i) :
    ∀ x ∈ (L.filter c).map proj, x = i := by
  intro x hx
  rcases List.mem_map.mp hx with ⟨t, ht, rfl⟩
  exact h t (List.mem_filter.mp ht).1

/-- The four query shapes of the influencer search collapse, under unique
primary keys, to one filter over the influencers table. -/
lemma searchInfluencersBase_eq (inp : SearchInfluencersInput) (st : DB)
    (hw : st.influencerIdsNodup) :
    searchInfluencersBase inp st
      = st.influencers.filter (influencerMatches inp st) := by
  have hseen : ∀ i ∈ st.influencers, i.id ∉ ([] : List Int) := by simp
  unfold searchInfluencersBase
  by_cases hPI : needsPIJoin inp = true <;>
    by_cases hSMA : needsSMAJoin inp = true
  · -- both joins
    simp only [hPI, hSMA, Bool.and_self, if_true]
    rw [List.filter_flatMap, List.map_flatMap, dedupById,
      dedupByIdAux_flatMap _ st.influencers [] hw hseen]
    · apply List.filter_congr
      intro i _
      rw [myIsEmpty_map, not_isEmpty_filter, List.any_flatMap]
      simp only [any_map']
      simp only [bool_sh5]
      rw [any_and_pair (smaRowsOf st i.id) (piRowsOf st i.id)
        (fun s => condPlatform inp s)
        (fun p => condCategory inp i &&
          ((condMinFollowers inp p && condMaxFollowers inp p) &&
            condEngagement inp p)),
        any_const_and]
      simp only [influencerMatches, hPI, hSMA, if_true, Bool.and_assoc]
    · intro i _
      apply proj_of_filter_map
      intro t ht
      rcases List.mem_flatMap.mp ht with ⟨s, _, hts⟩
      rcases List.mem_map.mp hts with ⟨p, _, rfl⟩
      rfl
  · -- performance join only
    have hSMA' : needsSMAJoin inp = false := Bool.not_eq_true _ |>.mp hSMA
    simp only [hPI, hSMA', Bool.and_false, Bool.false_eq_true, if_false,
      if_true]
    rw [List.filter_flatMap, List.map_flatMap, dedupById,
      dedupByIdAux_flatMap _ st.influencers [] hw hseen]
    · apply List.filter_congr
      intro i _
      rw [myIsEmpty_map, not_isEmpty_filter]
      simp only [any_map']
      simp only [bool_sh4]
      rw [any_const_and]
      simp only [influencerMatches, hPI, hSMA', if_true, Bool.false_eq_true,
        if_false, Bool.and_true, Bool.and_assoc]
    · intro i _
      apply proj_of_filter_map
      intro t ht
      rcases List.mem_map.mp ht with ⟨p, _, rfl⟩
      rfl
  · -- social media join only
    have hPI' : needsPIJoin inp = false := Bool.not_eq_true _ |>.mp hPI
    simp only [hPI', hSMA, Bool.false_and, Bool.false_eq_true, if_false,
      if_true]
    rw [List.filter_flatMap, List.map_flatMap, dedupById,
      dedupByIdAux_flatMap _ st.influencers [] hw hseen]
    · apply List.filter_congr
      intro i _
      rw [myIsEmpty_map, not_isEmpty_filter]
      simp only [any_map']
      rw [any_const_and]
      simp only [influencerMatches, hPI', hSMA, if_true, Bool.false_eq_true,
        if_false, Bool.and_true]
    · intro i _
      apply proj_of_filter_map
      intro t ht
      rcases List.mem_map.mp ht with ⟨s, _, rfl⟩
      rfl
  · -- no joins
    have hPI' : needsPIJoin inp = false := Bool.not_eq_true _ |>.mp hPI
    have hSMA' : needsSMAJoin inp = false := Bool.not_eq_true _ |>.mp hSMA
    have hcat : inp.category = none := by
      cases hc : inp.category with
      | none => rfl
      | some c => rw [needsPIJoin, hc] at hPI'; simp at hPI'
    simp only [hPI', hSMA', Bool.false_and, Bool.false_eq_true, if_false]
    have : ∀ i ∈ st.influencers, influencerMatches inp st i = true := by
      intro i _
      simp [influencerMatches, hPI', hSMA', condCategory, hcat]
    rw [List.filter_congr this, List.filter_true]


/-- The two query shapes of the campaign search collapse, under unique product
primary keys, to one filter over the campaigns table. -/
lemma searchCampaignsRows_eq (inp : SearchCampaignsInput) (st : DB)
    (hw : st.productIdsNodup) :
    searchCampaignsRows inp st
      = st.campaigns.filter (campaignMatches inp st) := by
  have hw' : (st.products.map (fun p => p.id)).Nodup := hw
  unfold searchCampaignsRows
  cases hc : inp.category with
  | none =>
      simp only [hc, Option.isSome_none, Bool.false_eq_true, if_false]
      apply List.filter_congr
      intro c _
      simp [campaignMatches, hc]
  | some cat =>
      simp only [hc, Option.isSome_some, if_true]
      rw [List.filter_flatMap, List.map_flatMap]
      apply flatMap_if_singleton
      intro c _
      have hkey := filter_key_of_nodup (fun p => p.id) st.products hw'
        c.product_id
      have hsplit :
          (st.products.any (fun q =>
            decide (q.id = c.product_id) && decide (q.category = cat)))
          = (st.products.filter (fun q => decide (q.id = c.product_id))).any
              (fun q => decide (q.category = cat)) :=
        (@List.any_filter Product st.products
          (fun q => decide (q.id = c.product_id))
          (fun q => decide (q.category = cat))).symm
      cases hf : st.products.find? (fun p => decide (p.id = c.product_id)) with
      | none =>
          have hrows :
              st.products.filter (fun q => decide (q.id = c.product_id))
                = [] := by rw [hkey, hf]
          have hpred : campaignMatches inp st c = false := by
            simp only [campaignMatches, hc, hsplit, hrows, List.any_nil,
              Bool.false_and]
          rw [hpred]
          simp [productRowsOf, hrows]
      | some p =>
          have hrows :
              st.products.filter (fun q => decide (q.id = c.product_id))
                = [p] := by rw [hkey, hf]
          have hpred : campaignMatches inp st c
              = (decide (p.category = cat) && condSponsorC inp c &&
                 condMinBudget inp c && condMaxBudget inp c &&
                 condStatusC inp c) := by
            simp only [campaignMatches, hc, hsplit, hrows, List.any_cons,
              List.any_nil, Bool.or_false]
          have hrows' : productRowsOf st c.product_id = [p] := by
            rw [productRowsOf, hrows]
          rw [hrows', hpred]
          simp only [List.map_cons, List.map_nil, List.filter_cons,
            List.filter_nil]
          cases hcp : (decide (p.category = cat) && condSponsorC inp c &&
              condMinBudget inp c && condMaxBudget inp c &&
              condStatusC inp c) with
          | true =>
              have : (condCatProduct inp (c, p).2 && condSponsorC inp (c, p).1 &&
                  condMinBudget inp (c, p).1 && condMaxBudget inp (c, p).1 &&
                  condStatusC inp (c, p).1) = true := by
                simpa [condCatProduct, hc] using hcp
              rw [this]
              simp
          | false =>
              have : (condCatProduct inp (c, p).2 && condSponsorC inp (c, p).1 &&
                  condMinBudget inp (c, p).1 && condMaxBudget inp (c, p).1 &&
                  condStatusC inp (c, p).1) = false := by
                simpa [condCatProduct, hc] using hcp
              rw [this]
              simp

/-! ## Claim theorems -/

/-- Empty store with all serial counters at 1. -/
def emptyDB : DB :=
  { influencers := [], socialAccounts := [], sponsors := [], products := [],
    campaigns := [], perfIndicators := [], nextInfluencerId := 1,
    nextAccountId := 1, nextSponsorId := 1, nextProductId := 1,
    nextCampaignId := 1, nextPerfId := 1 }

def c1Influencer : Influencer :=
  { id := 1, name := "Ana", email := "ana@mail.com", phone := none,
    bio := some "Fitness content creator", portfolio_description := none,
    created_at := 0, updated_at := 0 }

def c1DB : DB :=
  { emptyDB with
    influencers := [c1Influencer], nextInfluencerId := 2 }

def c1Input : SearchInfluencersInput :=
  { category := some "fitness", min_followers := none, max_followers := none,
    platform := none, min_engagement_rate := none, limit := 50, offset := 0 }

/-- C1, counterexample: an influencer whose bio matches the (only supplied)
category filter is nevertheless not returned, because a category filter makes
the query inner-join both PerformanceIndicators and SocialMediaAccounts, and
this influencer has no rows in either table.  So the returned influencers are
not exactly those satisfying the conjunction of the supplied filters. -/
theorem searchInfluencers_filters_only_cex :
    specInfluencerMatches c1Input c1DB c1Influencer = true
    ∧ c1Influencer ∈ c1DB.influencers
    ∧ searchInfluencers c1Input c1DB = [] := by
  decide

/-- C1 (amended): for every input, the query joins PerformanceIndicators
exactly when min_followers, max_followers, min_engagement_rate or category is
supplied and SocialMediaAccounts exactly when platform or category is supplied
(`needsPIJoin`/`needsSMAJoin`), deduplicates by grouping on the influencer
columns, and — provided influencer primary keys are unique — returns exactly
the influencers that satisfy all supplied filters AND possess at least one
performance row (satisfying the follower/engagement bounds) whenever the
performance join is included, and at least one social account row (satisfying
the platform filter) whenever the social join is included; a present-but-empty
category string forces the joins but no ILIKE condition
(`influencerMatches`), and the result is paginated in table order. -/
theorem searchInfluencers_characterization (inp : SearchInfluencersInput)
    (st : DB) (hw : st.influencerIdsNodup) :
    searchInfluencers inp st
      = ((st.influencers.filter (influencerMatches inp st)).drop
          inp.offset).take inp.limit := by
  rw [searchInfluencers, searchInfluencersBase_eq inp st hw]

def c1wInf1 : Influencer :=
  { id := 1, name := "Ana", email := "ana@mail.com", phone := none,
    bio := some "Fitness content creator", portfolio_description := none,
    created_at := 0, updated_at := 0 }

def c1wInf2 : Influencer :=
  { id := 2, name := "Bo", email := "bo@mail.com", phone := none,
    bio := some "Also into fitness", portfolio_description := none,
    created_at := 0, updated_at := 0 }

def c1wSma : SocialMediaAccount :=
  { id := 1, influencer_id := 1, platform := Platform.instagram,
    username := "ana", url := "https://example.com/ana",
    follower_count := some 1000, created_at := 0 }

def c1wPi : PerfIndicator :=
  { id := 1, influencer_id := 1, platform := Platform.instagram,
    followers_count := 20000, avg_views := none,
    avg_engagement_rate := some (mkRat 450 100), total_posts := none,
    last_updated := 0, created_at := 0 }

def c1wDB : DB :=
  { emptyDB with
    influencers := [c1wInf1, c1wInf2], socialAccounts := [c1wSma],
    perfIndicators := [c1wPi], nextInfluencerId := 3, nextAccountId := 2,
    nextPerfId := 2 }

def c1wInput : SearchInfluencersInput :=
  { category := some "fit", min_followers := some 10000,
    max_followers := none, platform := some Platform.instagram,
    min_engagement_rate := some (mkRat 4 1), limit := 10, offset := 0 }

theorem searchInfluencers_characterization_witness :
    c1wDB.influencerIdsNodup
    ∧ searchInfluencers c1wInput c1wDB = [c1wInf1] :=
  ⟨by decide,
   (searchInfluencers_characterization c1wInput c1wDB (by decide)).trans
     (by decide)⟩

/-- C2: `createCampaign` fails with a descriptive error if the sponsor does
not exist; otherwise, if the product does not exist; otherwise, if the
product's sponsor is not the supplied sponsor — three distinct conditions
checked in that order (a missing sponsor wins even if the product is also
missing), and in every failure case the returned store is the input store
unchanged: the error is raised before any row is written. -/
theorem createCampaign_referential_checks (inp : CreateCampaignInput)
    (now : Int) (st : DB) :
    (st.sponsors.find? (fun s => decide (s.id = inp.sponsor_id)) = none →
      createCampaign inp now st
        = (Except.error ("Sponsor with id " ++ toString inp.sponsor_id ++
            " not found"), st))
    ∧ (∀ sp, st.sponsors.find? (fun s => decide (s.id = inp.sponsor_id))
          = some sp →
        st.products.find? (fun p => decide (p.id = inp.product_id)) = none →
        createCampaign inp now st
          = (Except.error ("Product with id " ++ toString inp.product_id ++
              " not found"), st))
    ∧ (∀ sp p, st.sponsors.find? (fun s => decide (s.id = inp.sponsor_id))
          = some sp →
        st.products.find? (fun q => decide (q.id = inp.product_id)) = some p →
        p.sponsor_id ≠ inp.sponsor_id →
        createCampaign inp now st
          = (Except.error ("Product " ++ toString inp.product_id ++
              " does not belong to sponsor " ++ toString inp.sponsor_id),
             st)) := by
  refine ⟨?_, ?_, ?_⟩
  · intro h
    rw [createCampaign, h]
  · intro sp hs hp
    rw [createCampaign, hs, hp]
  · intro sp p hs hp hmis
    simp only [createCampaign, hs, hp]
    rw [if_pos hmis]

def c2Input : CreateCampaignInput :=
  { sponsor_id := 1, product_id := 1, title := "Launch", description := none,
    budget := mkRat 50000 100, target_audience := none, objectives := none,
    status := CampaignStatus.draft, start_date := none, end_date := none }

def c2Sponsor : Sponsor :=
  { id := 1, company_name := "Acme", contact_email := "acme@mail.com",
    contact_phone := none, industry := "toys", description := none,
    created_at := 0, updated_at := 0 }

def c2ProductOther : Product :=
  { id := 1, sponsor_id := 2, name := "Gadget", description := none,
    category := "tech", target_audience := none, created_at := 0,
    updated_at := 0 }

def c2StA : DB := emptyDB

def c2StB : DB :=
  { emptyDB with
    sponsors := [c2Sponsor], nextSponsorId := 2 }

def c2StC : DB :=
  { emptyDB with
    sponsors := [c2Sponsor], products := [c2ProductOther],
    nextSponsorId := 2, nextProductId := 2 }

theorem createCampaign_referential_checks_witness :
    createCampaign c2Input 0 c2StA
      = (Except.error ("Sponsor with id " ++ toString c2Input.sponsor_id ++
          " not found"), c2StA)
    ∧ createCampaign c2Input 0 c2StB
      = (Except.error ("Product with id " ++ toString c2Input.product_id ++
          " not found"), c2StB)
    ∧ createCampaign c2Input 0 c2StC
      = (Except.error ("Product " ++ toString c2Input.product_id ++
          " does not belong to sponsor " ++ toString c2Input.sponsor_id),
         c2StC) :=
  ⟨(createCampaign_referential_checks c2Input 0 c2StA).1 rfl,
   (createCampaign_referential_checks c2Input 0 c2StB).2.1 c2Sponsor rfl rfl,
   (createCampaign_referential_checks c2Input 0 c2StC).2.2 c2Sponsor
     c2ProductOther rfl rfl (by decide)⟩

def c3Product : Product :=
  { id := 1, sponsor_id := 1, name := "Widget", description := none,
    category := "electronics", target_audience := none, created_at := 0,
    updated_at := 0 }

def c3Camp500 : Campaign :=
  { id := 1, sponsor_id := 1, product_id := 1, title := "Small",
    description := none, budget := 50000, target_audience := none,
    objectives := none, status := CampaignStatus.draft, start_date := none,
    end_date := none, created_at := 0, updated_at := 0 }

def c3Camp1000 : Campaign :=
  { id := 2, sponsor_id := 1, product_id := 1, title := "Medium",
    description := none, budget := 100000, target_audience := none,
    objectives := none, status := CampaignStatus.active, start_date := none,
    end_date := none, created_at := 0, updated_at := 0 }

def c3Camp5000 : Campaign :=
  { id := 3, sponsor_id := 1, product_id := 1, title := "Big",
    description := none, budget := 500000, target_audience := none,
    objectives := none, status := CampaignStatus.active, start_date := none,
    end_date := none, created_at := 0, updated_at := 0 }

def c3DB : DB :=
  { emptyDB with
    sponsors := [c2Sponsor], products := [c3Product],
    campaigns := [c3Camp500, c3Camp1000, c3Camp5000], nextSponsorId := 2,
    nextProductId := 2, nextCampaignId := 4 }

def c3Input : SearchCampaignsInput :=
  { category := none, min_budget := some (mkRat 600 1), max_budget := none,
    status := some CampaignStatus.active, sponsor_id := none, limit := 50,
    offset := 0 }

/-- C3, counterexample: over campaigns with budgets 500, 1000, 5000 and
statuses draft/active/active, `searchCampaigns {status: active, min_budget:
600}` does not return exactly the 5000-budget campaign — the 1000-budget
campaign is active with budget `1000 ≥ 600`, so the result holds both. -/
theorem searchCampaigns_scenario_cex :
    searchCampaigns c3Input c3DB
      = [campaignToOut c3Camp1000, campaignToOut c3Camp5000]
    ∧ searchCampaigns c3Input c3DB ≠ [campaignToOut c3Camp5000] := by
  constructor
  · decide
  · decide

/-- C3 (amended): for every input, `searchCampaigns` joins Products exactly
when the category filter is present, and returns — in table order, paginated
— exactly the campaigns satisfying the conjunction of the supplied filters
(category: some product with the campaign's `product_id` has exactly that
category; budget bounds inclusive on the stored numeric value; status and
sponsor_id exact), with budgets parsed back to numbers; in the concrete
scenario of the claim, `{status: active, min_budget: 600}` returns exactly
the 1000- and 5000-budget campaigns (not only the 5000 one). -/
theorem searchCampaigns_characterization (inp : SearchCampaignsInput)
    (st : DB) (hw : st.productIdsNodup) :
    searchCampaigns inp st
      = (((st.campaigns.filter (campaignMatches inp st)).drop
          inp.offset).take inp.limit).map campaignToOut := by
  rw [searchCampaigns, searchCampaignsRows_eq inp st hw]

theorem searchCampaigns_characterization_witness :
    c3DB.productIdsNodup
    ∧ searchCampaigns c3Input c3DB
      = [campaignToOut c3Camp1000, campaignToOut c3Camp5000] :=
  ⟨by decide,
   (searchCampaigns_characterization c3Input c3DB (by decide)).trans
     (by decide)⟩

/-- The campaign a successful handler call returned, as a (0- or 1-element)
list. -/
def okOut (r : Except String CampaignOut × DB) : List CampaignOut :=
  match r.1 with
  | Except.ok co => [co]
  | Except.error _ => []

lemma budget_roundtrip_val :
    loadBudget (storeBudget (mkRat 123456 100)) = mkRat 123456 100 := by
  decide

/-- C4: a campaign created with budget 1234.56 surfaces `1234.56` as a number
from every read path — the create result, `getCampaigns`, an unfiltered
`searchCampaigns` (with the pagination window covering the table), and the
result of a later `updateCampaign` that does not touch the budget; the
store-as-text / return-as-number round trip is the identity on the value. -/
theorem campaign_budget_roundtrip (st : DB) (now now2 : Int)
    (inp : CreateCampaignInput) (u : UpdateCampaignInput)
    (hb : inp.budget = mkRat 123456 100)
    (hs : ∃ sp, st.sponsors.find? (fun s => decide (s.id = inp.sponsor_id))
        = some sp)
    (hp : ∃ p, st.products.find? (fun q => decide (q.id = inp.product_id))
        = some p ∧ p.sponsor_id = inp.sponsor_id)
    (hfresh : ∀ c ∈ st.campaigns, c.id ≠ st.nextCampaignId)
    (hu : u.id = st.nextCampaignId) (hub : u.budget = none) :
    ((okOut (createCampaign inp now st)).map (fun c => c.budget)
        = [mkRat 123456 100])
    ∧ getCampaigns (createCampaign inp now st).2
        = getCampaigns st ++ okOut (createCampaign inp now st)
    ∧ (∀ L : Nat, st.campaigns.length + 1 ≤ L →
        searchCampaigns
            { category := none, min_budget := none, max_budget := none,
              status := none, sponsor_id := none, limit := L, offset := 0 }
            (createCampaign inp now st).2
          = getCampaigns st ++ okOut (createCampaign inp now st))
    ∧ ((okOut (updateCampaign u now2 (createCampaign inp now st).2)).map
          (fun c => c.budget) = [mkRat 123456 100]) := by
  obtain ⟨sp, hsp⟩ := hs
  obtain ⟨p, hpf, hps⟩ := hp
  have hcc : createCampaign inp now st
      = (Except.ok (campaignToOut (newCampaignRow inp now st)),
         { st with
           campaigns := st.campaigns ++ [newCampaignRow inp now st],
           nextCampaignId := st.nextCampaignId + 1 }) := by
    simp only [createCampaign, hsp, hpf]
    rw [if_neg (by simp [hps])]
  have hbud : (campaignToOut (newCampaignRow inp now st)).budget
      = mkRat 123456 100 := by
    simp only [campaignToOut, newCampaignRow, hb]
    exact budget_roundtrip_val
  rw [hcc]
  refine ⟨?_, ?_, ?_, ?_⟩
  · simp [okOut, hbud]
  · simp [okOut, getCampaigns, List.map_append]
  · intro L hL
    have hrows : searchCampaignsRows
        { category := none, min_budget := none, max_budget := none,
          status := none, sponsor_id := none, limit := L, offset := 0 }
        { st with
          campaigns := st.campaigns ++ [newCampaignRow inp now st],
          nextCampaignId := st.nextCampaignId + 1 }
        = st.campaigns ++ [newCampaignRow inp now st] := by
      rw [searchCampaignsRows]
      simp [condSponsorC, condMinBudget, condMaxBudget, condStatusC]
    rw [searchCampaigns, hrows]
    rw [List.drop_zero, List.take_of_length_le (by simp; omega)]
    simp [okOut, getCampaigns, List.map_append]
  · have hfind : (st.campaigns ++ [newCampaignRow inp now st]).find?
        (fun c => decide (c.id = u.id)) = some (newCampaignRow inp now st) := by
      rw [List.find?_append]
      have h1 : st.campaigns.find? (fun c => decide (c.id = u.id)) = none := by
        apply List.find?_eq_none.mpr
        intro c hc
        simp only [decide_eq_true_eq]
        rw [hu]
        exact hfresh c hc
      rw [h1, Option.none_or, List.find?_cons]
      have h2 : (decide ((newCampaignRow inp now st).id = u.id)) = true := by
        simp [newCampaignRow, hu]
      rw [h2]
    simp only [updateCampaign, hfind]
    have hbud2 : (applyCampaignUpd u now2 (newCampaignRow inp now st)).budget
        = storeBudget (mkRat 123456 100) := by
      simp only [applyCampaignUpd, hub, newCampaignRow, hb]
    simp only [okOut, List.map_cons, List.map_nil, campaignToOut, hbud2]
    rw [budget_roundtrip_val]

def c4Sponsor : Sponsor :=
  { id := 1, company_name := "Acme", contact_email := "acme@mail.com",
    contact_phone := none, industry := "toys", description := none,
    created_at := 0, updated_at := 0 }

def c4Product : Product :=
  { id := 1, sponsor_id := 1, name := "Widget", description := none,
    category := "electronics", target_audience := none, created_at := 0,
    updated_at := 0 }

def c4St : DB :=
  { emptyDB with
    sponsors := [c4Sponsor], products := [c4Product], nextSponsorId := 2,
    nextProductId := 2 }

def c4Inp : CreateCampaignInput :=
  { sponsor_id := 1, product_id := 1, title := "Launch",
    description := none, budget := mkRat 123456 100,
    target_audience := none, objectives := none,
    status := CampaignStatus.draft, start_date := none, end_date := none }

def c4Upd : UpdateCampaignInput :=
  { id := 1, title := some "Relaunch", description := none, budget := none,
    target_audience := none, objectives := none, status := none,
    start_date := none, end_date := none }

theorem campaign_budget_roundtrip_witness :
    ((okOut (createCampaign c4Inp 10 c4St)).map (fun c => c.budget)
        = [mkRat 123456 100])
    ∧ getCampaigns (createCampaign c4Inp 10 c4St).2
        = getCampaigns c4St ++ okOut (createCampaign c4Inp 10 c4St)
    ∧ searchCampaigns
          { category := none, min_budget := none, max_budget := none,
            status := none, sponsor_id := none, limit := 50, offset := 0 }
          (createCampaign c4Inp 10 c4St).2
        = getCampaigns c4St ++ okOut (createCampaign c4Inp 10 c4St)
    ∧ ((okOut (updateCampaign c4Upd 20 (createCampaign c4Inp 10 c4St).2)).map
          (fun c => c.budget) = [mkRat 123456 100]) := by
  have h := campaign_budget_roundtrip c4St 10 20 c4Inp c4Upd rfl
    ⟨c4Sponsor, rfl⟩ ⟨c4Product, rfl, rfl⟩ (by simp [c4St, emptyDB]) rfl rfl
  exact ⟨h.1, h.2.1, h.2.2.1 50 (by decide), h.2.2.2⟩

/-- C5: each update handler changes exactly the supplied fields plus
`updated_at`: for a row matching the input id, every field supplied in the
input (including an explicit null, which clears a nullable column) takes the
supplied value, every absent field keeps its pre-update value, `created_at`
is untouched, `updated_at` becomes the current time; rows with other ids and
all other tables are untouched. -/
theorem partial_update_frame :
    (∀ (u : UpdateInfluencerInput) (now : Int) (st : DB) (pre : Influencer),
      st.influencers.find? (fun i => decide (i.id = u.id)) = some pre →
      ∃ r st2, updateInfluencer u now st = (Except.ok r, st2)
        ∧ r.id = pre.id
        ∧ (∀ v, u.name = some v → r.name = v)
        ∧ (u.name = none → r.name = pre.name)
        ∧ (∀ v, u.email = some v → r.email = v)
        ∧ (u.email = none → r.email = pre.email)
        ∧ (∀ v, u.phone = some v → r.phone = v)
        ∧ (u.phone = none → r.phone = pre.phone)
        ∧ (∀ v, u.bio = some v → r.bio = v)
        ∧ (u.bio = none → r.bio = pre.bio)
        ∧ (∀ v, u.portfolio_description = some v →
            r.portfolio_description = v)
        ∧ (u.portfolio_description = none →
            r.portfolio_description = pre.portfolio_description)
        ∧ r.created_at = pre.created_at ∧ r.updated_at = now
        ∧ (∀ i ∈ st.influencers, i.id ≠ u.id → i ∈ st2.influencers)
        ∧ st2.socialAccounts = st.socialAccounts
        ∧ st2.sponsors = st.sponsors ∧ st2.products = st.products
        ∧ st2.campaigns = st.campaigns
        ∧ st2.perfIndicators = st.perfIndicators)
    ∧ (∀ (u : UpdateSponsorInput) (now : Int) (st : DB) (pre : Sponsor),
      st.sponsors.find? (fun s => decide (s.id = u.id)) = some pre →
      ∃ r st2, updateSponsor u now st = (Except.ok r, st2)
        ∧ r.id = pre.id
        ∧ (∀ v, u.company_name = some v → r.company_name = v)
        ∧ (u.company_name = none → r.company_name = pre.company_name)
        ∧ (∀ v, u.contact_email = some v → r.contact_email = v)
        ∧ (u.contact_email = none → r.contact_email = pre.contact_email)
        ∧ (∀ v, u.contact_phone = some v → r.contact_phone = v)
        ∧ (u.contact_phone = none → r.contact_phone = pre.contact_phone)
        ∧ (∀ v, u.industry = some v → r.industry = v)
        ∧ (u.industry = none → r.industry = pre.industry)
        ∧ (∀ v, u.description = some v → r.description = v)
        ∧ (u.description = none → r.description = pre.description)
        ∧ r.created_at = pre.created_at ∧ r.updated_at = now
        ∧ (∀ s ∈ st.sponsors, s.id ≠ u.id → s ∈ st2.sponsors)
        ∧ st2.influencers = st.influencers
        ∧ st2.socialAccounts = st.socialAccounts
        ∧ st2.products = st.products ∧ st2.campaigns = st.campaigns
        ∧ st2.perfIndicators = st.perfIndicators)
    ∧ (∀ (u : UpdateCampaignInput) (now : Int) (st : DB) (pre : Campaign),
      st.campaigns.find? (fun c => decide (c.id = u.id)) = some pre →
      ∃ r st2, updateCampaign u now st = (Except.ok r, st2)
        ∧ r.id = pre.id
        ∧ r.sponsor_id = pre.sponsor_id ∧ r.product_id = pre.product_id
        ∧ (∀ v, u.title = some v → r.title = v)
        ∧ (u.title = none → r.title = pre.title)
        ∧ (∀ v, u.description = some v → r.description = v)
        ∧ (u.description = none → r.description = pre.description)
        ∧ (∀ b, u.budget = some b → r.budget = loadBudget (storeBudget b))
        ∧ (u.budget = none → r.budget = loadBudget pre.budget)
        ∧ (∀ v, u.target_audience = some v → r.target_audience = v)
        ∧ (u.target_audience = none → r.target_audience = pre.target_audience)
        ∧ (∀ v, u.objectives = some v → r.objectives = v)
        ∧ (u.objectives = none → r.objectives = pre.objectives)
        ∧ (∀ v, u.status = some v → r.status = v)
        ∧ (u.status = none → r.status = pre.status)
        ∧ (∀ v, u.start_date = some v → r.start_date = v)
        ∧ (u.start_date = none → r.start_date = pre.start_date)
        ∧ (∀ v, u.end_date = some v → r.end_date = v)
        ∧ (u.end_date = none → r.end_date = pre.end_date)
        ∧ r.created_at = pre.created_at ∧ r.updated_at = now
        ∧ (∀ c ∈ st.campaigns, c.id ≠ u.id → c ∈ st2.campaigns)
        ∧ st2.influencers = st.influencers
        ∧ st2.socialAccounts = st.socialAccounts
        ∧ st2.sponsors = st.sponsors ∧ st2.products = st.products
        ∧ st2.perfIndicators = st.perfIndicators) := by
  refine ⟨?_, ?_, ?_⟩
  · intro u now st pre hfind
    refine ⟨applyInfluencerUpd u now pre, _, by rw [updateInfluencer, hfind],
      ?_⟩
    refine ⟨rfl, ?_, ?_, ?_, ?_, ?_, ?_, ?_, ?_, ?_, ?_, rfl, rfl, ?_, rfl,
      rfl, rfl, rfl, rfl⟩
    · intro v hv; simp [applyInfluencerUpd, hv]
    · intro hv; simp [applyInfluencerUpd, hv]
    · intro v hv; simp [applyInfluencerUpd, hv]
    · intro hv; simp [applyInfluencerUpd, hv]
    · intro v hv; simp [applyInfluencerUpd, hv]
    · intro hv; simp [applyInfluencerUpd, hv]
    · intro v hv; simp [applyInfluencerUpd, hv]
    · intro hv; simp [applyInfluencerUpd, hv]
    · intro v hv; simp [applyInfluencerUpd, hv]
    · intro hv; simp [applyInfluencerUpd, hv]
    · intro i hi hne
      exact List.mem_map.mpr ⟨i, hi, by rw [if_neg hne]⟩
  · intro u now st pre hfind
    refine ⟨applySponsorUpd u now pre, _, by rw [updateSponsor, hfind], ?_⟩
    refine ⟨rfl, ?_, ?_, ?_, ?_, ?_, ?_, ?_, ?_, ?_, ?_, rfl, rfl, ?_, rfl,
      rfl, rfl, rfl, rfl⟩
    · intro v hv; simp [applySponsorUpd, hv]
    · intro hv; simp [applySponsorUpd, hv]
    · intro v hv; simp [applySponsorUpd, hv]
    · intro hv; simp [applySponsorUpd, hv]
    · intro v hv; simp [applySponsorUpd, hv]
    · intro hv; simp [applySponsorUpd, hv]
    · intro v hv; simp [applySponsorUpd, hv]
    · intro hv; simp [applySponsorUpd, hv]
    · intro v hv; simp [applySponsorUpd, hv]
    · intro hv; simp [applySponsorUpd, hv]
    · intro s hs hne
      exact List.mem_map.mpr ⟨s, hs, by rw [if_neg hne]⟩
  · intro u now st pre hfind
    refine ⟨campaignToOut (applyCampaignUpd u now pre), _,
      by rw [updateCampaign, hfind], ?_⟩
    refine ⟨rfl, rfl, rfl, ?_, ?_, ?_, ?_, ?_, ?_, ?_, ?_, ?_, ?_, ?_, ?_,
      ?_, ?_, ?_, ?_, rfl, rfl, ?_, rfl, rfl, rfl, rfl, rfl⟩
    · intro v hv; simp [campaignToOut, applyCampaignUpd, hv]
    · intro hv; simp [campaignToOut, applyCampaignUpd, hv]
    · intro v hv; simp [campaignToOut, applyCampaignUpd, hv]
    · intro hv; simp [campaignToOut, applyCampaignUpd, hv]
    · intro b hb; simp [campaignToOut, applyCampaignUpd, hb]
    · intro hb; simp [campaignToOut, applyCampaignUpd, hb]
    · intro v hv; simp [campaignToOut, applyCampaignUpd, hv]
    · intro hv; simp [campaignToOut, applyCampaignUpd, hv]
    · intro v hv; simp [campaignToOut, applyCampaignUpd, hv]
    · intro hv; simp [campaignToOut, applyCampaignUpd, hv]
    · intro v hv; simp [campaignToOut, applyCampaignUpd, hv]
    · intro hv; simp [campaignToOut, applyCampaignUpd, hv]
    · intro v hv; simp [campaignToOut, applyCampaignUpd, hv]
    · intro hv; simp [campaignToOut, applyCampaignUpd, hv]
    · intro v hv; simp [campaignToOut, applyCampaignUpd, hv]
    · intro hv; simp [campaignToOut, applyCampaignUpd, hv]
    · intro c hc hne
      exact List.mem_map.mpr ⟨c, hc, by rw [if_neg hne]⟩

def c5Inf : Influencer :=
  { id := 1, name := "Old", email := "old@mail.com",
    phone := some "123", bio := some "bio", portfolio_description := some "p",
    created_at := 5, updated_at := 5 }

def c5U : UpdateInfluencerInput :=
  { id := 1, name := some "New", email := none, phone := some none,
    bio := none, portfolio_description := none }

def c5Sp : Sponsor :=
  { id := 1, company_name := "Acme", contact_email := "acme@mail.com",
    contact_phone := some "555", industry := "toys",
    description := some "d", created_at := 5, updated_at := 5 }

def c5SU : UpdateSponsorInput :=
  { id := 1, company_name := none, contact_email := none,
    contact_phone := some none, industry := some "games",
    description := none }

def c5Camp : Campaign :=
  { id := 1, sponsor_id := 7, product_id := 9, title := "T",
    description := none, budget := 100000, target_audience := none,
    objectives := none, status := CampaignStatus.draft, start_date := none,
    end_date := none, created_at := 5, updated_at := 5 }

def c5CU : UpdateCampaignInput :=
  { id := 1, title := none, description := none,
    budget := some (mkRat 5000 1), target_audience := none,
    objectives := none, status := some CampaignStatus.active,
    start_date := none, end_date := none }

def c5St : DB :=
  { emptyDB with
    influencers := [c5Inf], sponsors := [c5Sp], campaigns := [c5Camp],
    nextInfluencerId := 2, nextSponsorId := 2, nextCampaignId := 2 }

theorem partial_update_frame_witness :
    (∃ r st2, updateInfluencer c5U 9 c5St = (Except.ok r, st2)
      ∧ r.name = "New" ∧ r.phone = none ∧ r.email = c5Inf.email
      ∧ r.bio = c5Inf.bio ∧ r.created_at = 5 ∧ r.updated_at = 9)
    ∧ (∃ r st2, updateSponsor c5SU 9 c5St = (Except.ok r, st2)
      ∧ r.industry = "games" ∧ r.contact_phone = none
      ∧ r.company_name = c5Sp.company_name ∧ r.updated_at = 9)
    ∧ (∃ r st2, updateCampaign c5CU 9 c5St = (Except.ok r, st2)
      ∧ r.budget = loadBudget (storeBudget (mkRat 5000 1))
      ∧ r.status = CampaignStatus.active ∧ r.title = c5Camp.title
      ∧ r.sponsor_id = c5Camp.sponsor_id ∧ r.updated_at = 9) := by
  refine ⟨?_, ?_, ?_⟩
  · obtain ⟨r, st2, heq, hid, hn1, hn2, he1, he2, hp1, hp2, hb1, hb2, hpd1,
      hpd2, hca, hua, _⟩ := partial_update_frame.1 c5U 9 c5St c5Inf (by decide)
    exact ⟨r, st2, heq, hn1 "New" rfl, hp1 none rfl, he2 rfl, hb2 rfl, hca,
      hua⟩
  · obtain ⟨r, st2, heq, hid, hc1, hc2, he1, he2, hp1, hp2, hi1, hi2, hd1,
      hd2, hca, hua, _⟩ :=
      partial_update_frame.2.1 c5SU 9 c5St c5Sp (by decide)
    exact ⟨r, st2, heq, hi1 "games" rfl, hp1 none rfl, hc2 rfl, hua⟩
  · obtain ⟨r, st2, heq, hid, hsp, hpr, ht1, ht2, hd1, hd2, hb1, hb2, hta1,
      hta2, ho1, ho2, hs1, hs2, hsd1, hsd2, hed1, hed2, hca, hua, _⟩ :=
      partial_update_frame.2.2 c5CU 9 c5St c5Camp (by decide)
    exact ⟨r, st2, heq, hb1 (mkRat 5000 1) rfl, hs1 CampaignStatus.active rfl,
      ht2 rfl, hsp, hua⟩

/-- C6: on a missing id, each update handler rejects with a descriptive
not-found error naming its entity type — the three messages are pairwise
distinct for every id — and returns the store unchanged, while
`getInfluencerById` returns `none` rather than an error. -/
theorem notfound_behavior :
    (∀ (u : UpdateInfluencerInput) (now : Int) (st : DB),
      st.influencers.find? (fun i => decide (i.id = u.id)) = none →
      updateInfluencer u now st
        = (Except.error ("Influencer with id " ++ toString u.id ++
            " not found"), st))
    ∧ (∀ (u : UpdateSponsorInput) (now : Int) (st : DB),
      st.sponsors.find? (fun s => decide (s.id = u.id)) = none →
      updateSponsor u now st
        = (Except.error ("Sponsor with id " ++ toString u.id ++
            " not found"), st))
    ∧ (∀ (u : UpdateCampaignInput) (now : Int) (st : DB),
      st.campaigns.find? (fun c => decide (c.id = u.id)) = none →
      updateCampaign u now st
        = (Except.error ("Campaign with id " ++ toString u.id ++
            " not found"), st))
    ∧ (∀ id : Int,
        ("Influencer with id " ++ toString id ++ " not found")
          ≠ ("Sponsor with id " ++ toString id ++ " not found")
        ∧ ("Influencer with id " ++ toString id ++ " not found")
          ≠ ("Campaign with id " ++ toString id ++ " not found")
        ∧ ("Sponsor with id " ++ toString id ++ " not found")
          ≠ ("Campaign with id " ++ toString id ++ " not found"))
    ∧ (∀ (id : Int) (st : DB),
        st.influencers.find? (fun i => decide (i.id = id)) = none →
        getInfluencerById id st = none) := by
  have hlen1 : ("Influencer with id ").length = 19 := by decide
  have hlen2 : ("Sponsor with id ").length = 16 := by decide
  have hlen3 : ("Campaign with id ").length = 17 := by decide
  refine ⟨?_, ?_, ?_, ?_, ?_⟩
  · intro u now st h
    rw [updateInfluencer, h]
  · intro u now st h
    rw [updateSponsor, h]
  · intro u now st h
    rw [updateCampaign, h]
  · intro id
    refine ⟨?_, ?_, ?_⟩ <;>
      · intro h
        have hl := congrArg String.length h
        simp only [String.length_append, hlen1, hlen2, hlen3] at hl
        omega
  · intro id st h
    rw [getInfluencerById, h]

theorem notfound_behavior_witness :
    updateInfluencer c5U 0 emptyDB
      = (Except.error ("Influencer with id " ++ toString c5U.id ++
          " not found"), emptyDB)
    ∧ updateSponsor c5SU 0 emptyDB
      = (Except.error ("Sponsor with id " ++ toString c5SU.id ++
          " not found"), emptyDB)
    ∧ updateCampaign c5CU 0 emptyDB
      = (Except.error ("Campaign with id " ++ toString c5CU.id ++
          " not found"), emptyDB)
    ∧ ("Influencer with id " ++ toString (1 : Int) ++ " not found")
        ≠ ("Sponsor with id " ++ toString (1 : Int) ++ " not found")
    ∧ getInfluencerById 1 emptyDB = none :=
  ⟨notfound_behavior.1 c5U 0 emptyDB rfl,
   notfound_behavior.2.1 c5SU 0 emptyDB rfl,
   notfound_behavior.2.2.1 c5CU 0 emptyDB rfl,
   (notfound_behavior.2.2.2.1 1).1,
   notfound_behavior.2.2.2.2 1 emptyDB rfl⟩

/-- C7: every created entity carries `created_at = updated_at` (both filled by
`defaultNow()`), hence `created_at ≤ updated_at` at creation; every update
sets `updated_at` to the current clock value and keeps `created_at`, so when
the clock has advanced past the row's `updated_at` the update strictly
increases `updated_at`. -/
theorem timestamps_invariant :
    (∀ (inp : CreateInfluencerInput) (now : Int) (st : DB) r st2,
      createInfluencer inp now st = (Except.ok r, st2) →
      r.created_at = r.updated_at)
    ∧ (∀ (inp : CreateSponsorInput) (now : Int) (st : DB) r st2,
      createSponsor inp now st = (Except.ok r, st2) →
      r.created_at = r.updated_at)
    ∧ (∀ (inp : CreateProductInput) (now : Int) (st : DB) r st2,
      createProduct inp now st = (Except.ok r, st2) →
      r.created_at = r.updated_at)
    ∧ (∀ (inp : CreateCampaignInput) (now : Int) (st : DB) r st2,
      createCampaign inp now st = (Except.ok r, st2) →
      r.created_at = r.updated_at)
    ∧ (∀ (u : UpdateInfluencerInput) (now : Int) (st : DB) pre r st2,
      st.influencers.find? (fun i => decide (i.id = u.id)) = some pre →
      updateInfluencer u now st = (Except.ok r, st2) →
      r.updated_at = now ∧ r.created_at = pre.created_at
        ∧ (pre.updated_at < now → pre.updated_at < r.updated_at))
    ∧ (∀ (u : UpdateSponsorInput) (now : Int) (st : DB) pre r st2,
      st.sponsors.find? (fun s => decide (s.id = u.id)) = some pre →
      updateSponsor u now st = (Except.ok r, st2) →
      r.updated_at = now ∧ r.created_at = pre.created_at
        ∧ (pre.updated_at < now → pre.updated_at < r.updated_at))
    ∧ (∀ (u : UpdateCampaignInput) (now : Int) (st : DB) pre r st2,
      st.campaigns.find? (fun c => decide (c.id = u.id)) = some pre →
      updateCampaign u now st = (Except.ok r, st2) →
      r.updated_at = now ∧ r.created_at = pre.created_at
        ∧ (pre.updated_at < now → pre.updated_at < r.updated_at)) := by
  refine ⟨?_, ?_, ?_, ?_, ?_, ?_, ?_⟩
  · intro inp now st r st2 h
    simp only [createInfluencer, Prod.mk.injEq, Except.ok.injEq] at h
    obtain ⟨hr, _⟩ := h
    rw [← hr]
  · intro inp now st r st2 h
    simp only [createSponsor, Prod.mk.injEq, Except.ok.injEq] at h
    obtain ⟨hr, _⟩ := h
    rw [← hr]
  · intro inp now st r st2 h
    simp only [createProduct, Prod.mk.injEq, Except.ok.injEq] at h
    obtain ⟨hr, _⟩ := h
    rw [← hr]
  · intro inp now st r st2 h
    cases hsp : st.sponsors.find? (fun s => decide (s.id = inp.sponsor_id)) with
    | none => simp [createCampaign, hsp] at h
    | some sp =>
        cases hpf : st.products.find?
            (fun p => decide (p.id = inp.product_id)) with
        | none => simp [createCampaign, hsp, hpf] at h
        | some p =>
            simp only [createCampaign, hsp, hpf] at h
            by_cases hmis : p.sponsor_id ≠ inp.sponsor_id
            · rw [if_pos hmis] at h
              simp at h
            · rw [if_neg hmis] at h
              simp only [Prod.mk.injEq, Except.ok.injEq] at h
              obtain ⟨hr, _⟩ := h
              rw [← hr]
              rfl
  · intro u now st pre r st2 hfind h
    simp only [updateInfluencer, hfind, Prod.mk.injEq, Except.ok.injEq] at h
    obtain ⟨hr, _⟩ := h
    refine ⟨by rw [← hr]; rfl, by rw [← hr]; rfl, ?_⟩
    intro hlt
    rw [← hr]
    exact hlt
  · intro u now st pre r st2 hfind h
    simp only [updateSponsor, hfind, Prod.mk.injEq, Except.ok.injEq] at h
    obtain ⟨hr, _⟩ := h
    refine ⟨by rw [← hr]; rfl, by rw [← hr]; rfl, ?_⟩
    intro hlt
    rw [← hr]
    exact hlt
  · intro u now st pre r st2 hfind h
    simp only [updateCampaign, hfind, Prod.mk.injEq, Except.ok.injEq] at h
    obtain ⟨hr, _⟩ := h
    refine ⟨by rw [← hr]; rfl, by rw [← hr]; rfl, ?_⟩
    intro hlt
    rw [← hr]
    exact hlt

def c7CI : CreateInfluencerInput :=
  { name := "N", email := "n@mail.com", phone := none, bio := none,
    portfolio_description := none }

theorem timestamps_invariant_witness :
    (∃ r st2, createInfluencer c7CI 3 emptyDB = (Except.ok r, st2)
      ∧ r.created_at = r.updated_at)
    ∧ (∃ r st2, updateInfluencer c5U 9 c5St = (Except.ok r, st2)
      ∧ c5Inf.updated_at < r.updated_at) := by
  constructor
  · refine ⟨_, _, rfl, ?_⟩
    exact timestamps_invariant.1 c7CI 3 emptyDB _ _ rfl
  · refine ⟨_, _, rfl, ?_⟩
    have h := timestamps_invariant.2.2.2.2.1 c5U 9 c5St c5Inf _ _
      (by decide) rfl
    exact h.2.2 (by decide)

def mkInf (n : Int) (em : String) : Influencer :=
  { id := n, name := "I", email := em, phone := none, bio := none,
    portfolio_description := none, created_at := 0, updated_at := 0 }

def c8DB : DB :=
  { emptyDB with
    influencers := [mkInf 1 "a@m.io", mkInf 2 "b@m.io", mkInf 3 "c@m.io",
      mkInf 4 "d@m.io", mkInf 5 "e@m.io"], nextInfluencerId := 6 }

def c8Page1 : SearchInfluencersInput :=
  { category := none, min_followers := none, max_followers := none,
    platform := none, min_engagement_rate := none, limit := 2, offset := 0 }

def c8Page2 : SearchInfluencersInput :=
  { category := none, min_followers := none, max_followers := none,
    platform := none, min_engagement_rate := none, limit := 2, offset := 2 }

/-- C8: with no filters, `searchInfluencers` is the influencers table
paginated by offset/limit in primary-key order; over 5 seeded influencers,
pages (limit 2, offset 0) and (limit 2, offset 2) have disjoint id sets that
together cover all but one record. -/
theorem searchInfluencers_pagination :
    (∀ (inp : SearchInfluencersInput) (st : DB),
      inp.category = none → inp.min_followers = none →
      inp.max_followers = none → inp.platform = none →
      inp.min_engagement_rate = none →
      searchInfluencers inp st
        = (st.influencers.drop inp.offset).take inp.limit)
    ∧ ((searchInfluencers c8Page1 c8DB).map (fun i => i.id) = [1, 2]
      ∧ (searchInfluencers c8Page2 c8DB).map (fun i => i.id) = [3, 4]
      ∧ (∀ x ∈ (searchInfluencers c8Page1 c8DB).map (fun i => i.id),
          x ∉ (searchInfluencers c8Page2 c8DB).map (fun i => i.id))
      ∧ ((searchInfluencers c8Page1 c8DB).map (fun i => i.id)
          ++ (searchInfluencers c8Page2 c8DB).map (fun i => i.id)).length + 1
          = c8DB.influencers.length
      ∧ (∀ x ∈ (searchInfluencers c8Page1 c8DB).map (fun i => i.id)
            ++ (searchInfluencers c8Page2 c8DB).map (fun i => i.id),
          x ∈ c8DB.influencers.map (fun i => i.id))) := by
  constructor
  · intro inp st h1 h2 h3 h4 h5
    have hbase : searchInfluencersBase inp st = st.influencers := by
      rw [searchInfluencersBase]
      simp [needsPIJoin, needsSMAJoin, h1, h2, h3, h4, h5]
    rw [searchInfluencers, hbase]
  · refine ⟨by decide, by decide, by decide, by decide, by decide⟩

theorem searchInfluencers_pagination_witness :
    searchInfluencers c8Page1 c8DB
      = (c8DB.influencers.drop c8Page1.offset).take c8Page1.limit :=
  searchInfluencers_pagination.1 c8Page1 c8DB rfl rfl rfl rfl rfl

/-- C9: when the referenced influencer exists, `createSocialMediaAccount`
inserts and returns the row; `follower_count: input.follower_count || null`
collapses a supplied `0` (and a missing or null field) to `null`, and stores
the supplied value exactly when it is nonzero. -/
theorem createSocialMediaAccount_follower_zero
    (inp : CreateSocialMediaAccountInput) (now : Int) (st : DB)
    (hinf : ∃ i, st.influencers.find?
        (fun j => decide (j.id = inp.influencer_id)) = some i) :
    ∃ r st2, createSocialMediaAccount inp now st = (Except.ok r, st2)
      ∧ r ∈ st2.socialAccounts
      ∧ (inp.follower_count = some (some 0) → r.follower_count = none)
      ∧ (∀ n : Int, n ≠ 0 → inp.follower_count = some (some n) →
          r.follower_count = some n)
      ∧ (inp.follower_count = none → r.follower_count = none)
      ∧ (inp.follower_count = some none → r.follower_count = none) := by
  obtain ⟨i, hi⟩ := hinf
  have heq : createSocialMediaAccount inp now st
      = (Except.ok (newAccountRow inp now st),
         { st with
           socialAccounts := st.socialAccounts ++ [newAccountRow inp now st],
           nextAccountId := st.nextAccountId + 1 }) := by
    simp only [createSocialMediaAccount, hi]
  refine ⟨_, _, heq, ?_, ?_, ?_, ?_, ?_⟩
  · simp
  · intro h
    simp [newAccountRow, jsOrNullNum, h]
  · intro n hn h
    simp [newAccountRow, jsOrNullNum, h, hn]
  · intro h
    simp [newAccountRow, jsOrNullNum, h]
  · intro h
    simp [newAccountRow, jsOrNullNum, h]

def c9St : DB :=
  { emptyDB with
    influencers := [mkInf 1 "a@m.io"], nextInfluencerId := 2 }

def c9In0 : CreateSocialMediaAccountInput :=
  { influencer_id := 1, platform := Platform.tiktok, username := "u",
    url := "https://example.com/u", follower_count := some (some 0) }

def c9In500 : CreateSocialMediaAccountInput :=
  { influencer_id := 1, platform := Platform.tiktok, username := "u",
    url := "https://example.com/u", follower_count := some (some 500) }

theorem createSocialMediaAccount_follower_zero_witness :
    (∃ r st2, createSocialMediaAccount c9In0 4 c9St = (Except.ok r, st2)
      ∧ r.follower_count = none)
    ∧ (∃ r st2, createSocialMediaAccount c9In500 4 c9St = (Except.ok r, st2)
      ∧ r.follower_count = some 500) := by
  constructor
  · obtain ⟨r, st2, heq, _, h0, _⟩ :=
      createSocialMediaAccount_follower_zero c9In0 4 c9St
        ⟨mkInf 1 "a@m.io", by decide⟩
    exact ⟨r, st2, heq, h0 rfl⟩
  · obtain ⟨r, st2, heq, _, _, h1, _⟩ :=
      createSocialMediaAccount_follower_zero c9In500 4 c9St
        ⟨mkInf 1 "a@m.io", by decide⟩
    exact ⟨r, st2, heq, h1 500 (by decide) rfl⟩

/-- C10: `UpdateCampaignInput` has no sponsor_id/product_id field and
`updateCampaign` never changes a campaign's `sponsor_id` or `product_id` (nor
the products table), so the ownership invariant established by
`createCampaign` — every campaign's product exists and belongs to the
campaign's sponsor — is preserved by `updateCampaign`, re-established by
`createCampaign`, and untouched by the other update handlers. -/
theorem campaign_ownership_preserved :
    (∀ (u : UpdateCampaignInput) (now : Int) (st : DB) r st2,
      updateCampaign u now st = (Except.ok r, st2) →
      st2.products = st.products
        ∧ ∀ c2 ∈ st2.campaigns, ∃ c ∈ st.campaigns,
            c2.id = c.id ∧ c2.sponsor_id = c.sponsor_id
              ∧ c2.product_id = c.product_id)
    ∧ (∀ (u : UpdateCampaignInput) (now : Int) (st : DB) r st2,
      campaignIntegrity st = true →
      updateCampaign u now st = (Except.ok r, st2) →
      campaignIntegrity st2 = true)
    ∧ (∀ (inp : CreateCampaignInput) (now : Int) (st : DB) r st2,
      campaignIntegrity st = true →
      createCampaign inp now st = (Except.ok r, st2) →
      campaignIntegrity st2 = true)
    ∧ (∀ (u : UpdateSponsorInput) (now : Int) (st : DB) r st2,
      updateSponsor u now st = (Except.ok r, st2) →
      st2.campaigns = st.campaigns ∧ st2.products = st.products)
    ∧ (∀ (u : UpdateInfluencerInput) (now : Int) (st : DB) r st2,
      updateInfluencer u now st = (Except.ok r, st2) →
      st2.campaigns = st.campaigns ∧ st2.products = st.products) := by
  have hframe : ∀ (u : UpdateCampaignInput) (now : Int) (st : DB) r st2,
      updateCampaign u now st = (Except.ok r, st2) →
      st2.products = st.products
        ∧ ∀ c2 ∈ st2.campaigns, ∃ c ∈ st.campaigns,
            c2.id = c.id ∧ c2.sponsor_id = c.sponsor_id
              ∧ c2.product_id = c.product_id := by
    intro u now st r st2 h
    cases hf : st.campaigns.find? (fun c => decide (c.id = u.id)) with
    | none => simp [updateCampaign, hf] at h
    | some pre =>
        simp only [updateCampaign, hf, Prod.mk.injEq, Except.ok.injEq] at h
        obtain ⟨_, hst⟩ := h
        subst hst
        refine ⟨rfl, ?_⟩
        intro c2 hc2
        obtain ⟨c, hc, hfc⟩ := List.mem_map.mp hc2
        refine ⟨c, hc, ?_⟩
        by_cases hid : c.id = u.id
        · rw [if_pos hid] at hfc
          rw [← hfc]
          exact ⟨rfl, rfl, rfl⟩
        · rw [if_neg hid] at hfc
          rw [← hfc]
          exact ⟨rfl, rfl, rfl⟩
  refine ⟨hframe, ?_, ?_, ?_, ?_⟩
  · intro u now st r st2 hint heq
    obtain ⟨hprod, hrows⟩ := hframe u now st r st2 heq
    rw [campaignIntegrity, List.all_eq_true]
    intro c2 hc2
    obtain ⟨c, hc, hid, hsp, hpr⟩ := hrows c2 hc2
    have hin : st.products.any (fun p =>
        decide (p.id = c.product_id) && decide (p.sponsor_id = c.sponsor_id))
        = true := by
      rw [campaignIntegrity, List.all_eq_true] at hint
      exact hint c hc
    rw [hprod, hpr, hsp]
    exact hin
  · intro inp now st r st2 hint heq
    cases hsp : st.sponsors.find? (fun s => decide (s.id = inp.sponsor_id)) with
    | none => simp [createCampaign, hsp] at heq
    | some sp =>
        cases hpf : st.products.find?
            (fun p => decide (p.id = inp.product_id)) with
        | none => simp [createCampaign, hsp, hpf] at heq
        | some p =>
            simp only [createCampaign, hsp, hpf] at heq
            by_cases hmis : p.sponsor_id ≠ inp.sponsor_id
            · rw [if_pos hmis] at heq
              simp at heq
            · rw [if_neg hmis] at heq
              simp only [Prod.mk.injEq, Except.ok.injEq] at heq
              obtain ⟨_, hst⟩ := heq
              subst hst
              have hpeq : p.sponsor_id = inp.sponsor_id := not_not.mp hmis
              rw [campaignIntegrity, List.all_eq_true]
              intro c2 hc2
              rcases List.mem_append.mp hc2 with hold | hnew
              · rw [campaignIntegrity, List.all_eq_true] at hint
                exact hint c2 hold
              · have hc2' : c2 = newCampaignRow inp now st := by
                  simpa using hnew
                subst hc2'
                apply List.any_eq_true.mpr
                refine ⟨p, List.mem_of_find?_eq_some hpf, ?_⟩
                have hpid : p.id = inp.product_id := by
                  simpa using List.find?_some hpf
                simp [newCampaignRow, hpid, hpeq]
  · intro u now st r st2 h
    cases hf : st.sponsors.find? (fun s => decide (s.id = u.id)) with
    | none => simp [updateSponsor, hf] at h
    | some pre =>
        simp only [updateSponsor, hf, Prod.mk.injEq, Except.ok.injEq] at h
        obtain ⟨_, hst⟩ := h
        subst hst
        exact ⟨rfl, rfl⟩
  · intro u now st r st2 h
    cases hf : st.influencers.find? (fun i => decide (i.id = u.id)) with
    | none => simp [updateInfluencer, hf] at h
    | some pre =>
        simp only [updateInfluencer, hf, Prod.mk.injEq, Except.ok.injEq] at h
        obtain ⟨_, hst⟩ := h
        subst hst
        exact ⟨rfl, rfl⟩

def c10Camp : Campaign :=
  { id := 1, sponsor_id := 1, product_id := 1, title := "T",
    description := none, budget := 100000, target_audience := none,
    objectives := none, status := CampaignStatus.draft, start_date := none,
    end_date := none, created_at := 0, updated_at := 0 }

def c10St : DB :=
  { emptyDB with
    sponsors := [c4Sponsor], products := [c4Product],
    campaigns := [c10Camp], nextSponsorId := 2, nextProductId := 2,
    nextCampaignId := 2 }

theorem campaign_ownership_preserved_witness :
    campaignIntegrity c10St = true
    ∧ (∃ r st2, updateCampaign c5CU 9 c10St = (Except.ok r, st2)
      ∧ campaignIntegrity st2 = true)
    ∧ (∃ r st2, createCampaign c4Inp 9 c10St = (Except.ok r, st2)
      ∧ campaignIntegrity st2 = true) := by
  refine ⟨by decide, ?_, ?_⟩
  · refine ⟨_, _, rfl, ?_⟩
    exact campaign_ownership_preserved.2.1 c5CU 9 c10St _ _ (by decide) rfl
  · refine ⟨_, _, rfl, ?_⟩
    exact campaign_ownership_preserved.2.2.1 c4Inp 9 c10St _ _ (by decide) rfl
